import Mathlib

/-!
Library catalog controllers: genre and book-instance request handlers.

A shallow embedding of `controllers/genreController.js` and
`controllers/bookinstanceController.js`.  A handler is a function from the
request (route id, parsed form body) and the store to the store after the
call and the response that was sent.  The store operations follow the
collaborator contracts of the specification (find-by-id, find-with-filter,
find-one, save, delete-by-id); schema-level checks of the persistence layer
are outside the handlers and are not modelled.  The one schema operation a
handler depends on, the cast of the `book` reference that
`bookinstance_create_post` reads back, is a parameter of that handler.
-/

namespace Catalog

/-! ## Data model -/

/-- Document ids, route ids and id-valued form fields are strings. -/
abbrev Id := String

/-- Modelled from the spec: `models/book.js` is not among the sources.  A Book
has a title, a summary and a genre reference used for filtering. -/
structure Book where
  id : Id
  title : String
  summary : String
  genre : Id
  deriving DecidableEq

/-- Modelled from the spec: `models/genre.js` is not among the sources.  A Genre
has an id, a name and an optional description.  A field that was assigned the
JavaScript value undefined is `none`. -/
structure Genre where
  id : Id
  name : Option String
  description : Option String
  deriving DecidableEq

/-- Modelled from the spec: the derived `url` of a Genre is the canonical detail
path built from its id (the virtual is declared in `models/genre.js`). -/
def Genre.url (g : Genre) : String := "/catalog/genre/" ++ g.id

/-- Modelled from the spec: the Genre schema (`models/genre.js`, not among the
sources) has the fields id, name and description.  It has no `books` path and no
handler ever writes one, so the property read `genre.books` yields undefined. -/
def Genre.books (_g : Genre) : Option (List Book) := none

/-- A value held by the `due_back` field: the text that was submitted, the Date
(milliseconds since the epoch) produced by the `toDate` sanitizer, or null. -/
inductive DueBack where
  | text (s : String)
  | date (ms : Int)
  | null
  deriving DecidableEq

/-- Modelled from the spec: `models/bookinstance.js` is not among the sources.  A
BookInstance has an id, a book reference, an imprint, a status and an optional
due_back. -/
structure BookInstance where
  id : Id
  book : Option Id
  imprint : Option String
  status : Option String
  due_back : Option DueBack
  deriving DecidableEq

/-- Modelled from the spec: the derived `url` of a BookInstance is the canonical
detail path built from its id (the virtual is declared in
`models/bookinstance.js`). -/
def BookInstance.url (b : BookInstance) : String := "/catalog/bookinstance/" ++ b.id

/-- The three collections of the document store. -/
structure Store where
  genres : List Genre
  books : List Book
  bookinstances : List BookInstance
  deriving DecidableEq

/-! ## Store operations -/

/-- `Model.findById(id)`: the document with that id, or null. -/
def findById {α : Type} (key : α → Id) (xs : List α) (id : Id) : Option α :=
  xs.find? (fun x => key x == id)

/-- `Model.findByIdAndRemove(id)`: removes the document with that id, if there is
one.  An undefined id matches no document. -/
def findByIdAndRemove {α : Type} (key : α → Id) (xs : List α) : Option Id → List α
  | none => xs
  | some id => xs.eraseP (fun x => key x == id)

/-- `doc.save()` on a document that was loaded from the store: the stored document
with the same id is overwritten. -/
def saveLoaded {α : Type} (key : α → Id) : List α → α → List α
  | [], _ => []
  | x :: xs, d => if key x == key d then d :: xs else x :: saveLoaded key xs d

/-- `doc.save()` on a document built with `new Model(...)`: it is inserted. -/
def saveNew {α : Type} (xs : List α) (d : α) : List α := xs ++ [d]

/-- `Genre.findOne({ name })`: the first genre whose name is exactly `name`. -/
def Genre.findOne (gs : List Genre) (name : String) : Option Genre :=
  gs.find? (fun g => g.name == some name)

/-- The projection `"title summary"` of a Book. -/
structure BookSummary where
  id : Id
  title : String
  summary : String
  deriving DecidableEq

/-- The projection `"title"` of a Book. -/
structure BookTitle where
  id : Id
  title : String
  deriving DecidableEq

/-- `Book.find({ genre: id }, "title summary")`. -/
def Book.findByGenre (bs : List Book) (id : Id) : List BookSummary :=
  (bs.filter (fun b => b.genre == id)).map (fun b => ⟨b.id, b.title, b.summary⟩)

/-- `Book.find({}, "title")`. -/
def Book.findTitles (bs : List Book) : List BookTitle :=
  bs.map (fun b => ⟨b.id, b.title⟩)

/-- A BookInstance after `.populate("book")`: the reference is replaced by the
referenced Book, or by null when no such Book exists. -/
structure PopulatedInstance where
  id : Id
  book : Option Book
  imprint : Option String
  status : Option String
  due_back : Option DueBack
  deriving DecidableEq

/-- The `.populate("book")` step of a query. -/
def populate (bs : List Book) (b : BookInstance) : PopulatedInstance :=
  { id := b.id
    book := b.book.bind (findById Book.id bs)
    imprint := b.imprint
    status := b.status
    due_back := b.due_back }

/-- Ascending order on the sort key `name`; a missing name sorts first. -/
def nameLe : Option String → Option String → Bool
  | none, _ => true
  | some _, none => false
  | some a, some b => !decide (b < a)

/-- `Genre.find().sort({ name: 1 })`. -/
def Genre.findSorted (gs : List Genre) : List Genre :=
  gs.insertionSort (fun a b => nameLe a.name b.name = true)

/-! ## Validation and sanitization (express-validator) -/

/-- The characters matched by the JavaScript pattern `\s`. -/
def isJsWhitespace (c : Char) : Bool :=
  let n := c.toNat
  (9 ≤ n && n ≤ 13) || n == 32 || n == 160 || n == 5760 || (8192 ≤ n && n ≤ 8202)
    || n == 8232 || n == 8233 || n == 8239 || n == 8287 || n == 12288 || n == 65279

/-- The `trim()` sanitizer: whitespace is removed from both ends. -/
def trim (s : String) : String :=
  ⟨((s.data.dropWhile isJsWhitespace).reverse.dropWhile isJsWhitespace).reverse⟩

/-- The replacement of one character by the `escape()` sanitizer. -/
def escapeChar (c : Char) : List Char :=
  if c = '&' then "&amp;".data
  else if c = Char.ofNat 34 then "&quot;".data
  else if c = Char.ofNat 39 then "&#x27;".data
  else if c = '<' then "&lt;".data
  else if c = '>' then "&gt;".data
  else if c = '/' then "&#x2F;".data
  else if c = Char.ofNat 92 then "&#x5C;".data
  else if c = Char.ofNat 96 then "&#96;".data
  else [c]

/-- The `escape()` sanitizer: HTML-special characters become entities. -/
def escape (s : String) : String := ⟨(s.data.map escapeChar).flatten⟩

/-- The string a sanitizer works on: a missing field counts as the empty string. -/
def fieldText (v : Option String) : String := v.getD ""

/-- The `isLength({ min })` validator. -/
def isLength (min : Nat) (s : String) : Bool := decide (min ≤ s.length)

/-- One entry of `errors.array()`. -/
structure FieldError where
  field : String
  msg : String
  deriving DecidableEq

/-! ## Responses -/

/-- The error object handed to `next`. -/
structure HttpError where
  message : String
  status : Option Nat
  deriving DecidableEq

/-- The `bookinstance` entry of a data bag: a plain document, or one whose book
reference was populated. -/
inductive InstanceView where
  | plain (b : BookInstance)
  | populated (b : PopulatedInstance)
  deriving DecidableEq

/-- The data bag passed to `res.render`; a key that is not passed is `none`. -/
structure Locals where
  title : String
  genre_list : Option (List Genre) := none
  genre : Option Genre := none
  genre_books : Option (List BookSummary) := none
  errors : Option (List FieldError) := none
  bookinstance_list : Option (List PopulatedInstance) := none
  bookinstance : Option InstanceView := none
  book_list : Option (List BookTitle) := none
  selected_book : Option Id := none
  deriving DecidableEq

/-- What a handler does with the request: render a view, redirect, or forward an
error to `next`. -/
inductive Response where
  | render (view : String) (locals : Locals)
  | redirect (path : String)
  | next (err : HttpError)
  deriving DecidableEq

/-- The HTTP status of a response: 200 for a rendered page, 302 for a redirect, and
the status carried by a forwarded error. -/
def Response.statusCode : Response → Option Nat
  | .render _ _ => some 200
  | .redirect _ => some 302
  | .next e => e.status

/-- The response is a redirect. -/
def Response.isRedirect : Response → Bool
  | .redirect _ => true
  | _ => false

/-- The response is a rendered page. -/
def Response.isRender : Response → Bool
  | .render _ _ => true
  | _ => false

/-! ## Genre handlers -/

/-- The form body of the genre routes. -/
structure GenreBody where
  name : Option String := none
  description : Option String := none
  genreid : Option Id := none
  deriving DecidableEq

/-- Handler `genre_list`. -/
def genre_list (s : Store) : Store × Response :=
  let allGenres := Genre.findSorted s.genres
  (s, .render "genre_list" { title := "Genre Liste", genre_list := some allGenres })

/-- Handler `genre_detail`. -/
def genre_detail (id : Id) (s : Store) : Store × Response :=
  let booksInGenre := Book.findByGenre s.books id
  match findById Genre.id s.genres id with
  | none => (s, .next { message := "Genre nicht gefunden", status := some 404 })
  | some genre =>
    (s, .render "genre_detail"
      { title := "Genre Detail", genre := some genre, genre_books := some booksInGenre })

/-- Handler `genre_create_get`. -/
def genre_create_get (s : Store) : Store × Response :=
  (s, .render "genre_form" { title := "Create Genre" })

/-- Handler `genre_create_post`: the validation chain on `name` (trim, isLength
min 3, escape) followed by the request handler.  `newId` is the id that
`new Genre(...)` gives the document. -/
def genre_create_post (newId : Id) (body : GenreBody) (s : Store) : Store × Response :=
  let trimmed := trim (fieldText body.name)
  let errors : List FieldError :=
    if isLength 3 trimmed then []
    else [{ field := "name", msg := "Genre name must contain at least 3 characters" }]
  let name := escape trimmed
  let genre : Genre := { id := newId, name := some name, description := none }
  if !errors.isEmpty then
    (s, .render "genre_form"
      { title := "Create Genre", genre := some genre, errors := some errors })
  else
    match Genre.findOne s.genres name with
    | some genreExists => (s, .redirect genreExists.url)
    | none => ({ s with genres := saveNew s.genres genre }, .redirect genre.url)

/-- Handler `genre_delete_get`. -/
def genre_delete_get (id : Id) (s : Store) : Store × Response :=
  match findById Genre.id s.genres id with
  | none => (s, .redirect "/catalog/genres")
  | some genre => (s, .render "genre_delete" { title := "Delete Genre", genre := some genre })

/-- The guard `genre.books && genre.books.length > 0`. -/
def hasBooksGuard (genre : Genre) : Bool :=
  match genre.books with
  | none => false
  | some bs => decide (bs.length > 0)

/-- Handler `genre_delete_post`. -/
def genre_delete_post (id : Id) (body : GenreBody) (s : Store) : Store × Response :=
  match findById Genre.id s.genres id with
  | none => (s, .redirect "/catalog/genres")
  | some genre =>
    if hasBooksGuard genre then
      (s, .render "genre_delete" { title := "Delete Genre", genre := some genre })
    else
      ({ s with genres := findByIdAndRemove Genre.id s.genres body.genreid },
        .redirect "/catalog/genres")

/-- Handler `genre_update_get`. -/
def genre_update_get (id : Id) (s : Store) : Store × Response :=
  match findById Genre.id s.genres id with
  | none => (s, .redirect "/catalog/genres")
  | some genre => (s, .render "genre_update" { title := "Update Genre", genre := some genre })

/-- Handler `genre_update_post`. -/
def genre_update_post (id : Id) (body : GenreBody) (s : Store) : Store × Response :=
  match findById Genre.id s.genres id with
  | none => (s, .redirect "/catalog/genres")
  | some genre =>
    let genre := { genre with name := body.name, description := body.description }
    ({ s with genres := saveLoaded Genre.id s.genres genre }, .redirect genre.url)

/-! ## BookInstance handlers -/

/-- The form body of the book-instance routes. -/
structure InstanceBody where
  book : Option String := none
  imprint : Option String := none
  status : Option String := none
  due_back : Option String := none
  bookinstanceid : Option Id := none
  deriving DecidableEq

/-- The library functions applied to the fields of a submitted book instance.
`isISO8601` and `toDate` are the validator and the sanitizer of the validation
library used on `due_back` (`toDate` gives null when the text does not parse).
`castObjectId` is the cast that the persistence layer applies to a value assigned
to a reference path: the id the value denotes, or nothing when the value denotes
no id. -/
structure FieldLib where
  isISO8601 : String → Bool
  toDate : String → Option Int
  castObjectId : String → Option Id

/-- The TypeError raised by a property read on undefined; it carries no status. -/
def undefinedReadError : HttpError :=
  { message := "TypeError: Cannot read properties of undefined (reading _id)", status := none }

/-- Handler `bookinstance_list`. -/
def bookinstance_list (s : Store) : Store × Response :=
  let allBookInstances := s.bookinstances.map (populate s.books)
  (s, .render "bookinstance_list"
    { title := "Liste der Buchexemplare", bookinstance_list := some allBookInstances })

/-- Handler `bookinstance_detail`. -/
def bookinstance_detail (id : Id) (s : Store) : Store × Response :=
  match (findById BookInstance.id s.bookinstances id).map (populate s.books) with
  | none => (s, .next { message := "Buchexemplar nicht gefunden", status := some 404 })
  | some bookInstance =>
    (s, .render "bookinstance_detail"
      { title := "Buch:", bookinstance := some (.populated bookInstance) })

/-- Handler `bookinstance_create_get`. -/
def bookinstance_create_get (s : Store) : Store × Response :=
  let allBooks := Book.findTitles s.books
  (s, .render "bookinstance_form" { title := "Create BookInstance", book_list := some allBooks })

/-- The chain on `due_back`: `optional({ values: "falsy" })` skips a missing or
empty value; otherwise `isISO8601` validates and `toDate` converts.  Returns the
errors and the value left in the body. -/
def sanitizeDueBack (lib : FieldLib) : Option String → List FieldError × Option DueBack
  | none => ([], none)
  | some v =>
    if v = "" then ([], some (.text v))
    else
      let errors : List FieldError :=
        if lib.isISO8601 v then [] else [{ field := "due_back", msg := "Invalid date" }]
      let value : DueBack :=
        match lib.toDate v with
        | some ms => .date ms
        | none => .null
      (errors, some value)

/-- Handler `bookinstance_create_post`: the validation chains on `book`, `imprint`,
`status` and `due_back` followed by the request handler.  `newId` is the id that
`new BookInstance(...)` gives the document.  The schema is in
`models/bookinstance.js`, not among the sources; by the spec `book` is a reference
to a Book, so the document holds the id that the sanitized `book` value casts to,
and no `book` at all when the cast fails.  The read `bookInstance.book._id` gives
that id; on a document without `book` it throws, and the async wrapper forwards
the error to `next`. -/
def bookinstance_create_post (lib : FieldLib) (newId : Id) (body : InstanceBody) (s : Store) :
    Store × Response :=
  let trimmedBook := trim (fieldText body.book)
  let bookErrors : List FieldError :=
    if isLength 1 trimmedBook then [] else [{ field := "book", msg := "Book must be specified" }]
  let book := escape trimmedBook
  let trimmedImprint := trim (fieldText body.imprint)
  let imprintErrors : List FieldError :=
    if isLength 1 trimmedImprint then []
    else [{ field := "imprint", msg := "Imprint must be specified" }]
  let imprint := escape trimmedImprint
  let status := escape (fieldText body.status)
  let dueBack := sanitizeDueBack lib body.due_back
  let errors := bookErrors ++ imprintErrors ++ dueBack.1
  let bookInstance : BookInstance :=
    { id := newId, book := lib.castObjectId book, imprint := some imprint,
      status := some status, due_back := dueBack.2 }
  if !errors.isEmpty then
    let allBooks := Book.findTitles s.books
    match bookInstance.book with
    | none => (s, .next undefinedReadError)
    | some bookId =>
      (s, .render "bookinstance_form"
        { title := "Create BookInstance", book_list := some allBooks,
          selected_book := some bookId, errors := some errors,
          bookinstance := some (.plain bookInstance) })
  else
    ({ s with bookinstances := saveNew s.bookinstances bookInstance },
      .redirect bookInstance.url)

/-- Handler `bookinstance_delete_get`. -/
def bookinstance_delete_get (id : Id) (s : Store) : Store × Response :=
  match findById BookInstance.id s.bookinstances id with
  | none => (s, .redirect "/catalog/bookinstances")
  | some bookInstance =>
    (s, .render "bookinstance_delete"
      { title := "Delete Book Instance", bookinstance := some (.plain bookInstance) })

/-- Handler `bookinstance_delete_post`. -/
def bookinstance_delete_post (id : Id) (body : InstanceBody) (s : Store) : Store × Response :=
  match findById BookInstance.id s.bookinstances id with
  | none => (s, .redirect "/catalog/bookinstances")
  | some _ =>
    ({ s with bookinstances :=
        findByIdAndRemove BookInstance.id s.bookinstances body.bookinstanceid },
      .redirect "/catalog/bookinstances")

/-- Handler `bookinstance_update_get`. -/
def bookinstance_update_get (id : Id) (s : Store) : Store × Response :=
  match findById BookInstance.id s.bookinstances id with
  | none => (s, .redirect "/catalog/bookinstances")
  | some bookInstance =>
    (s, .render "bookinstance_update"
      { title := "Update Book Instance", bookinstance := some (.plain bookInstance) })

/-- Handler `bookinstance_update_post`. -/
def bookinstance_update_post (id : Id) (body : InstanceBody) (s : Store) : Store × Response :=
  match findById BookInstance.id s.bookinstances id with
  | none => (s, .redirect "/catalog/bookinstances")
  | some bookInstance =>
    let bookInstance :=
      { bookInstance with status := body.status, due_back := body.due_back.map DueBack.text }
    ({ s with bookinstances := saveLoaded BookInstance.id s.bookinstances bookInstance },
      .redirect bookInstance.url)

/-! ## The genre handlers as a step relation -/

/-- A request to one of the genre routes. -/
inductive GenreRequest where
  | list
  | detail (id : Id)
  | create_get
  | create_post (newId : Id) (body : GenreBody)
  | delete_get (id : Id)
  | delete_post (id : Id) (body : GenreBody)
  | update_get (id : Id)
  | update_post (id : Id) (body : GenreBody)

/-- The handler that serves a request. -/
def genreStep : GenreRequest → Store → Store × Response
  | .list => genre_list
  | .detail id => genre_detail id
  | .create_get => genre_create_get
  | .create_post newId body => genre_create_post newId body
  | .delete_get id => genre_delete_get id
  | .delete_post id body => genre_delete_post id body
  | .update_get id => genre_update_get id
  | .update_post id body => genre_update_post id body

/-- No two persisted genres have the same name. -/
def UniqueNames (s : Store) : Prop := (s.genres.map Genre.name).Nodup

instance (s : Store) : Decidable (UniqueNames s) := by
  unfold UniqueNames; infer_instance

/-- The request does not give a genre the name of another persisted genre: for an
update POST that finds its genre, every persisted genre that already carries the
submitted name is the genre being updated.  Every other request qualifies. -/
def NoNameClash : GenreRequest → Store → Prop
  | .update_post id body, s =>
    ∀ g ∈ s.genres, g.name = body.name →
      findById Genre.id s.genres id = none ∨ findById Genre.id s.genres id = some g
  | _, _ => True

instance (r : GenreRequest) (s : Store) : Decidable (NoNameClash r s) := by
  cases r <;> unfold NoNameClash <;> infer_instance

/-- The stores reachable from `s0` by serving genre requests one after another,
none of which gives a genre the name of another persisted genre. -/
inductive Reachable (s0 : Store) : Store → Prop where
  | init : Reachable s0 s0
  | step (r : GenreRequest) (s : Store) :
      Reachable s0 s → NoNameClash r s → Reachable s0 (genreStep r s).1

/-! ## Sample data -/

/-- A store with two genres, one book in the first genre and one copy of it. -/
def sampleStore : Store :=
  { genres := [⟨"g1", some "Fantasy", none⟩, ⟨"g2", some "Horror", none⟩]
    books := [⟨"b1", "Dune", "Sand", "g1"⟩]
    bookinstances := [⟨"i1", some "b1", some "Gollancz", some "Available", none⟩] }

/-- A hexadecimal digit. -/
def isHexDigit (c : Char) : Bool :=
  let n := c.toNat
  (48 ≤ n && n ≤ 57) || (65 ≤ n && n ≤ 70) || (97 ≤ n && n ≤ 102)

/-- Library functions for running the handlers on sample data: no text is a date,
and the ids are the texts of 24 hexadecimal digits. -/
def sampleFieldLib : FieldLib :=
  { isISO8601 := fun _ => false
    toDate := fun _ => none
    castObjectId := fun v =>
      if v.length = 24 ∧ v.data.all isHexDigit = true then some v else none }

/-! ## Lemmas on the store operations -/

theorem findById_eq_some {α : Type} {key : α → Id} {xs : List α} {id : Id} {x : α}
    (h : findById key xs id = some x) : x ∈ xs ∧ key x = id := by
  unfold findById at h
  refine ⟨List.mem_of_find?_eq_some h, ?_⟩
  have := List.find?_some h
  simpa using this

theorem findById_eq_none {α : Type} {key : α → Id} {xs : List α} {id : Id} :
    findById key xs id = none ↔ ∀ x ∈ xs, key x ≠ id := by
  unfold findById
  simp [List.find?_eq_none]

theorem findOne_eq_none {gs : List Genre} {name : String} :
    Genre.findOne gs name = none ↔ ∀ g ∈ gs, g.name ≠ some name := by
  unfold Genre.findOne
  simp [List.find?_eq_none]

theorem findOne_eq_some {gs : List Genre} {name : String} {g : Genre}
    (h : Genre.findOne gs name = some g) : g ∈ gs ∧ g.name = some name := by
  unfold Genre.findOne at h
  refine ⟨List.mem_of_find?_eq_some h, ?_⟩
  have := List.find?_some h
  simpa using this

theorem eraseP_eq_filter_of_nodup {α : Type} (key : α → Id) (id : Id) :
    ∀ xs : List α, (xs.map key).Nodup →
      xs.eraseP (fun x => key x == id) = xs.filter (fun x => key x != id)
  | [], _ => rfl
  | x :: xs, h => by
    rw [List.map_cons, List.nodup_cons] at h
    by_cases hx : key x = id
    · have hrest : ∀ y ∈ xs, key y ≠ id := by
        intro y hy hyid
        exact h.1 (List.mem_map.mpr ⟨y, hy, hyid.trans hx.symm⟩)
      have hfil : xs.filter (fun x => key x != id) = xs :=
        List.filter_eq_self.mpr (by intro y hy; simpa using hrest y hy)
      simp [List.eraseP_cons, hx, hfil]
    · have ih := eraseP_eq_filter_of_nodup key id xs h.2
      simp [List.eraseP_cons, hx, ih]

theorem findById_filter_ne_self {α : Type} (key : α → Id) (id : Id) (xs : List α) :
    findById key (xs.filter (fun x => key x != id)) id = none := by
  rw [findById_eq_none]
  intro x hx
  have := (List.mem_filter.mp hx).2
  simpa using this

theorem findById_filter_ne_other {α : Type} (key : α → Id) (id id2 : Id) (hne : id2 ≠ id) :
    ∀ xs : List α, findById key (xs.filter (fun x => key x != id)) id2 = findById key xs id2
  | [] => rfl
  | x :: xs => by
    have ih := findById_filter_ne_other key id id2 hne xs
    unfold findById at ih ⊢
    by_cases hx : key x = id
    · have hb : (key x != id) = false := by simp [hx]
      have hb2 : (key x == id2) = false := by
        simp only [beq_eq_false_iff_ne, ne_eq]
        exact fun h => hne (h.symm.trans hx)
      rw [List.filter_cons, hb, List.find?_cons, hb2]
      simpa using ih
    · have hb : (key x != id) = true := by simp [hx]
      rw [List.filter_cons, hb]
      simp only [if_true, List.find?_cons]
      rw [ih]

theorem findById_append_of_forall_ne {α : Type} (key : α → Id) (id : Id) (l₂ : List α) :
    ∀ l₁ : List α, (∀ y ∈ l₁, key y ≠ id) → findById key (l₁ ++ l₂) id = findById key l₂ id
  | [], _ => rfl
  | y :: l₁, h => by
    have ih := findById_append_of_forall_ne key id l₂ l₁
      (fun z hz => h z (List.mem_cons_of_mem _ hz))
    have hy : (key y == id) = false := by
      simp only [beq_eq_false_iff_ne, ne_eq]
      exact h y (List.mem_cons_self _ _)
    unfold findById at ih ⊢
    rw [List.cons_append, List.find?_cons, hy]
    exact ih

theorem saveLoaded_split {α : Type} (key : α → Id) (d : α) :
    ∀ (xs : List α) (x : α), findById key xs (key d) = some x →
      ∃ l₁ l₂, xs = l₁ ++ x :: l₂ ∧ (∀ y ∈ l₁, key y ≠ key d) ∧
        saveLoaded key xs d = l₁ ++ d :: l₂
  | [], x, h => by simp [findById] at h
  | y :: ys, x, h => by
    by_cases hy : key y = key d
    · have hxy : y = x := by
        have : findById key (y :: ys) (key d) = some y := by simp [findById, hy]
        rw [this] at h
        exact Option.some.inj h
      subst hxy
      exact ⟨[], ys, rfl, by simp, by simp [saveLoaded, hy]⟩
    · have hb : (key y == key d) = false := by simpa using hy
      have h2 : findById key ys (key d) = some x := by
        unfold findById at h ⊢
        rw [List.find?_cons, hb] at h
        exact h
      obtain ⟨l₁, l₂, hxs, hl₁, hsave⟩ := saveLoaded_split key d ys x h2
      refine ⟨y :: l₁, l₂, by simp [hxs], ?_, by simp [saveLoaded, hb, hsave]⟩
      intro z hz
      rcases List.mem_cons.mp hz with rfl | hz
      · exact hy
      · exact hl₁ z hz

theorem findById_replace_other {α : Type} (key : α → Id) (id2 : Id) (x d : α)
    (hkey : key d = key x) (hne : id2 ≠ key x) (l₂ : List α) :
    ∀ l₁ : List α, findById key (l₁ ++ d :: l₂) id2 = findById key (l₁ ++ x :: l₂) id2
  | [] => by
    have hd : (key d == id2) = false := by
      simp only [beq_eq_false_iff_ne, ne_eq]
      exact fun h => hne (h.symm.trans hkey)
    have hx : (key x == id2) = false := by
      simp only [beq_eq_false_iff_ne, ne_eq]
      exact fun h => hne h.symm
    simp [findById, List.find?_cons, hd, hx]
  | y :: l₁ => by
    have ih := findById_replace_other key id2 x d hkey hne l₂ l₁
    unfold findById at ih ⊢
    simp only [List.cons_append, List.find?_cons]
    rw [ih]

/-! ## Creating a genre -/

/-- C2: a genre-create submission whose name passes validation and whose sanitized
name is already the name of a stored genre leaves the store unchanged and
redirects to the url of a stored genre with that name. -/
theorem genre_create_post_duplicate (newId : Id) (body : GenreBody) (s : Store)
    (hvalid : 3 ≤ (trim (fieldText body.name)).length)
    (hdup : ∃ g ∈ s.genres, g.name = some (escape (trim (fieldText body.name)))) :
    (genre_create_post newId body s).1 = s ∧
    ∃ g ∈ s.genres, g.name = some (escape (trim (fieldText body.name))) ∧
      Genre.findOne s.genres (escape (trim (fieldText body.name))) = some g ∧
      (genre_create_post newId body s).2 = .redirect g.url := by
  obtain ⟨g0, hg0, hname0⟩ := hdup
  cases hf : Genre.findOne s.genres (escape (trim (fieldText body.name))) with
  | none => exact absurd hname0 (findOne_eq_none.mp hf g0 hg0)
  | some g =>
    obtain ⟨hmem, hname⟩ := findOne_eq_some hf
    refine ⟨?_, g, hmem, hname, rfl, ?_⟩ <;>
      simp [genre_create_post, isLength, hvalid, hf]

theorem genre_create_post_duplicate_witness :
    (genre_create_post "g3" { name := some " Horror " } sampleStore).1 = sampleStore ∧
    ∃ g ∈ sampleStore.genres, g.name = some (escape (trim (fieldText (some " Horror ")))) ∧
      Genre.findOne sampleStore.genres (escape (trim (fieldText (some " Horror ")))) = some g ∧
      (genre_create_post "g3" { name := some " Horror " } sampleStore).2 = .redirect g.url :=
  genre_create_post_duplicate "g3" { name := some " Horror " } sampleStore (by decide)
    ⟨⟨"g2", some "Horror", none⟩, by decide, by decide⟩

/-- C3: a genre-create submission whose name passes validation and whose sanitized
name is the name of no stored genre appends exactly one genre carrying that name to
the genre collection, changes nothing else, and redirects to the url of the new
genre. -/
theorem genre_create_post_fresh (newId : Id) (body : GenreBody) (s : Store)
    (hvalid : 3 ≤ (trim (fieldText body.name)).length)
    (hfresh : ∀ g ∈ s.genres, g.name ≠ some (escape (trim (fieldText body.name)))) :
    (genre_create_post newId body s).1.genres =
        s.genres ++ [⟨newId, some (escape (trim (fieldText body.name))), none⟩] ∧
    (genre_create_post newId body s).1.books = s.books ∧
    (genre_create_post newId body s).1.bookinstances = s.bookinstances ∧
    (genre_create_post newId body s).2 =
        .redirect (Genre.url ⟨newId, some (escape (trim (fieldText body.name))), none⟩) := by
  have hf := findOne_eq_none.mpr hfresh
  simp [genre_create_post, isLength, hvalid, hf, saveNew]

theorem genre_create_post_fresh_witness :
    (genre_create_post "g3" { name := some " Sci<Fi " } sampleStore).1.genres =
        sampleStore.genres ++ [⟨"g3", some "Sci&lt;Fi", none⟩] ∧
    (genre_create_post "g3" { name := some " Sci<Fi " } sampleStore).1.books
        = sampleStore.books ∧
    (genre_create_post "g3" { name := some " Sci<Fi " } sampleStore).1.bookinstances
        = sampleStore.bookinstances ∧
    (genre_create_post "g3" { name := some " Sci<Fi " } sampleStore).2 =
        .redirect "/catalog/genre/g3" :=
  genre_create_post_fresh "g3" { name := some " Sci<Fi " } sampleStore (by decide) (by decide)

/-- C4: a genre-create submission whose name is shorter than 3 after trimming (a
missing name counts as empty) leaves the store unchanged and renders `genre_form`
with status 200, no redirect, and an error list of exactly one error, which is for
the field `name`; the response does not depend on the store. -/
theorem genre_create_post_invalid (newId : Id) (body : GenreBody) (s : Store)
    (hshort : (trim (fieldText body.name)).length < 3) :
    (genre_create_post newId body s).1 = s ∧
    (∃ locals e, (genre_create_post newId body s).2 = .render "genre_form" locals ∧
      locals.errors = some [e] ∧ e.field = "name") ∧
    (genre_create_post newId body s).2.statusCode = some 200 ∧
    (genre_create_post newId body s).2.isRedirect = false ∧
    ∀ s2 : Store, (genre_create_post newId body s2).2 = (genre_create_post newId body s).2 := by
  have hnot : ¬ 3 ≤ (trim (fieldText body.name)).length := Nat.not_le.mpr hshort
  refine ⟨?_, ⟨{ title := "Create Genre"
                 genre := some ⟨newId, some (escape (trim (fieldText body.name))), none⟩
                 errors := some [⟨"name", "Genre name must contain at least 3 characters"⟩] },
    ⟨"name", "Genre name must contain at least 3 characters"⟩, ?_, rfl, rfl⟩, ?_, ?_, ?_⟩ <;>
    simp [genre_create_post, isLength, hnot, Response.statusCode, Response.isRedirect]

theorem genre_create_post_invalid_witness :
    (genre_create_post "g3" { name := some "  ab " } sampleStore).1 = sampleStore ∧
    (∃ locals e, (genre_create_post "g3" { name := some "  ab " } sampleStore).2
        = .render "genre_form" locals ∧ locals.errors = some [e] ∧ e.field = "name") ∧
    (genre_create_post "g3" { name := some "  ab " } sampleStore).2.statusCode = some 200 ∧
    (genre_create_post "g3" { name := some "  ab " } sampleStore).2.isRedirect = false ∧
    ∀ s2 : Store, (genre_create_post "g3" { name := some "  ab " } s2).2
        = (genre_create_post "g3" { name := some "  ab " } sampleStore).2 :=
  genre_create_post_invalid "g3" { name := some "  ab " } sampleStore (by decide)

/-! ## Deleting a genre -/

/-- C1: evaluation of `genre_delete_post` on a genre that has a book.  The genre
`g1` of the sample store exists and the book `b1` refers to it, yet the handler
removes `g1` and answers with a redirect to the genre list instead of rendering
the confirmation view. -/
theorem genre_delete_post_ignores_books :
    findById Genre.id sampleStore.genres "g1" = some ⟨"g1", some "Fantasy", none⟩ ∧
    (∃ b ∈ sampleStore.books, b.genre = "g1") ∧
    (genre_delete_post "g1" { genreid := some "g1" } sampleStore).1.genres
      = [⟨"g2", some "Horror", none⟩] ∧
    (genre_delete_post "g1" { genreid := some "g1" } sampleStore).2
      = .redirect "/catalog/genres" := by
  decide

/-- C5, as stated, fails: with route id `g2` (an existing genre without books) and
body id `g1`, the handler removes `g1`, keeps `g2`, and a later detail request for
`g2` renders the genre instead of forwarding a 404. -/
theorem genre_delete_post_route_body_mismatch :
    findById Genre.id sampleStore.genres "g2" = some ⟨"g2", some "Horror", none⟩ ∧
    (∀ b ∈ sampleStore.books, b.genre ≠ "g2") ∧
    (genre_delete_post "g2" { genreid := some "g1" } sampleStore).1.genres
      = [⟨"g2", some "Horror", none⟩] ∧
    (genre_detail "g2" (genre_delete_post "g2" { genreid := some "g1" } sampleStore).1).2
      = .render "genre_detail"
          { title := "Genre Detail", genre := some ⟨"g2", some "Horror", none⟩,
            genre_books := some [] } := by
  decide

/-- C5, amended: in a store with unique genre ids, a `genre_delete_post` request
whose route id names an existing genre without books and whose body `genreid`
equals the route id removes that genre, keeps every other genre and the other
collections unchanged, and redirects to `/catalog/genres`; a `genre_detail`
request for that id on the resulting store forwards an error with status 404. -/
theorem genre_delete_post_removes (id : Id) (body : GenreBody) (s : Store) (g : Genre)
    (hids : (s.genres.map Genre.id).Nodup)
    (hg : findById Genre.id s.genres id = some g)
    (hnobooks : ∀ b ∈ s.books, b.genre ≠ id)
    (hbody : body.genreid = some id) :
    (genre_delete_post id body s).1.genres = s.genres.filter (fun x => x.id != id) ∧
    findById Genre.id (genre_delete_post id body s).1.genres id = none ∧
    (∀ id2, id2 ≠ id → findById Genre.id (genre_delete_post id body s).1.genres id2
        = findById Genre.id s.genres id2) ∧
    (genre_delete_post id body s).1.books = s.books ∧
    (genre_delete_post id body s).1.bookinstances = s.bookinstances ∧
    (genre_delete_post id body s).2 = .redirect "/catalog/genres" ∧
    (genre_detail id (genre_delete_post id body s).1).2
      = .next { message := "Genre nicht gefunden", status := some 404 } := by
  have _ := hnobooks
  have hgen : (genre_delete_post id body s).1.genres
      = s.genres.filter (fun x => x.id != id) := by
    simp [genre_delete_post, hg, hasBooksGuard, Genre.books, findByIdAndRemove, hbody,
      eraseP_eq_filter_of_nodup Genre.id id s.genres hids]
  have hnone : findById Genre.id (genre_delete_post id body s).1.genres id = none := by
    rw [hgen]; exact findById_filter_ne_self Genre.id id s.genres
  refine ⟨hgen, hnone, ?_, ?_, ?_, ?_, ?_⟩
  · intro id2 hne
    rw [hgen]; exact findById_filter_ne_other Genre.id id id2 hne s.genres
  · simp [genre_delete_post, hg, hasBooksGuard, Genre.books]
  · simp [genre_delete_post, hg, hasBooksGuard, Genre.books]
  · simp [genre_delete_post, hg, hasBooksGuard, Genre.books]
  · simp only [genre_detail, hnone]

theorem genre_delete_post_removes_witness :
    (genre_delete_post "g2" { genreid := some "g2" } sampleStore).1.genres
      = sampleStore.genres.filter (fun x => x.id != "g2") ∧
    findById Genre.id (genre_delete_post "g2" { genreid := some "g2" } sampleStore).1.genres "g2"
      = none ∧
    (∀ id2, id2 ≠ "g2" →
      findById Genre.id (genre_delete_post "g2" { genreid := some "g2" } sampleStore).1.genres id2
        = findById Genre.id sampleStore.genres id2) ∧
    (genre_delete_post "g2" { genreid := some "g2" } sampleStore).1.books = sampleStore.books ∧
    (genre_delete_post "g2" { genreid := some "g2" } sampleStore).1.bookinstances
      = sampleStore.bookinstances ∧
    (genre_delete_post "g2" { genreid := some "g2" } sampleStore).2
      = .redirect "/catalog/genres" ∧
    (genre_detail "g2" (genre_delete_post "g2" { genreid := some "g2" } sampleStore).1).2
      = .next { message := "Genre nicht gefunden", status := some 404 } :=
  genre_delete_post_removes "g2" { genreid := some "g2" } sampleStore ⟨"g2", some "Horror", none⟩
    (by decide) (by decide) (by decide) (by decide)

/-! ## Detail views -/

/-- C7: `genre_detail` and `bookinstance_detail` forward an error with status 404,
and render nothing, exactly when no entity of the collection has the route id; when
one exists they render the detail view (the genre together with exactly the books
whose genre reference is the id, resp. the populated instance) and forward no
error.  Neither handler changes the store. -/
theorem detail_not_found_iff (id : Id) (s : Store) :
    (((∃ e, (genre_detail id s).2 = .next e ∧ e.status = some 404) ∧
        (genre_detail id s).2.isRender = false) ↔ ∀ g ∈ s.genres, g.id ≠ id) ∧
    ((∃ g ∈ s.genres, g.id = id) → ∃ g ∈ s.genres, g.id = id ∧
      (genre_detail id s).2 = .render "genre_detail"
        { title := "Genre Detail", genre := some g,
          genre_books := some (Book.findByGenre s.books id) }) ∧
    (∀ x, x ∈ Book.findByGenre s.books id ↔
      ∃ b ∈ s.books, b.genre = id ∧ x = ⟨b.id, b.title, b.summary⟩) ∧
    (genre_detail id s).1 = s ∧
    (((∃ e, (bookinstance_detail id s).2 = .next e ∧ e.status = some 404) ∧
        (bookinstance_detail id s).2.isRender = false) ↔ ∀ b ∈ s.bookinstances, b.id ≠ id) ∧
    ((∃ b ∈ s.bookinstances, b.id = id) → ∃ b ∈ s.bookinstances, b.id = id ∧
      (bookinstance_detail id s).2 = .render "bookinstance_detail"
        { title := "Buch:", bookinstance := some (.populated (populate s.books b)) }) ∧
    (bookinstance_detail id s).1 = s := by
  refine ⟨?_, ?_, ?_, ?_, ?_, ?_, ?_⟩
  · rw [← findById_eq_none]
    cases hf : findById Genre.id s.genres id <;>
      simp [genre_detail, hf, Response.isRender]
  · rintro ⟨g0, hg0, hid0⟩
    cases hf : findById Genre.id s.genres id with
    | none => exact absurd hid0 (findById_eq_none.mp hf g0 hg0)
    | some g =>
      obtain ⟨hmem, hid⟩ := findById_eq_some hf
      exact ⟨g, hmem, hid, by simp [genre_detail, hf]⟩
  · intro x
    simp only [Book.findByGenre, List.mem_map, List.mem_filter, beq_iff_eq]
    constructor
    · rintro ⟨b, ⟨hb, hgen⟩, rfl⟩
      exact ⟨b, hb, hgen, rfl⟩
    · rintro ⟨b, hb, hgen, rfl⟩
      exact ⟨b, ⟨hb, hgen⟩, rfl⟩
  · cases hf : findById Genre.id s.genres id <;> simp [genre_detail, hf]
  · rw [← findById_eq_none]
    cases hf : findById BookInstance.id s.bookinstances id <;>
      simp [bookinstance_detail, hf, Response.isRender]
  · rintro ⟨b0, hb0, hid0⟩
    cases hf : findById BookInstance.id s.bookinstances id with
    | none => exact absurd hid0 (findById_eq_none.mp hf b0 hb0)
    | some b =>
      obtain ⟨hmem, hid⟩ := findById_eq_some hf
      exact ⟨b, hmem, hid, by simp [bookinstance_detail, hf]⟩
  · cases hf : findById BookInstance.id s.bookinstances id <;> simp [bookinstance_detail, hf]

theorem detail_not_found_iff_witness :
    (∃ g ∈ sampleStore.genres, g.id = "g1" ∧
      (genre_detail "g1" sampleStore).2 = .render "genre_detail"
        { title := "Genre Detail", genre := some g,
          genre_books := some (Book.findByGenre sampleStore.books "g1") }) ∧
    (∃ b ∈ sampleStore.bookinstances, b.id = "i1" ∧
      (bookinstance_detail "i1" sampleStore).2 = .render "bookinstance_detail"
        { title := "Buch:", bookinstance := some (.populated (populate sampleStore.books b)) }) ∧
    ((∃ e, (genre_detail "g9" sampleStore).2 = .next e ∧ e.status = some 404) ∧
        (genre_detail "g9" sampleStore).2.isRender = false) :=
  ⟨(detail_not_found_iff "g1" sampleStore).2.1 ⟨⟨"g1", some "Fantasy", none⟩, by decide, rfl⟩,
   (detail_not_found_iff "i1" sampleStore).2.2.2.2.2.1
      ⟨⟨"i1", some "b1", some "Gollancz", some "Available", none⟩, by decide, rfl⟩,
   (detail_not_found_iff "g9" sampleStore).1.mpr (by decide)⟩

/-! ## Requests for an entity that does not exist -/

/-- C8: when the route id names no genre, resp. no book instance, each of the eight
update and delete handlers leaves the store unchanged and answers with a redirect
to the list path of the entity, whatever the body carries. -/
theorem missing_entity_redirects (id : Id) (gbody : GenreBody) (ibody : InstanceBody)
    (s : Store) :
    ((∀ g ∈ s.genres, g.id ≠ id) →
      genre_delete_get id s = (s, .redirect "/catalog/genres") ∧
      genre_delete_post id gbody s = (s, .redirect "/catalog/genres") ∧
      genre_update_get id s = (s, .redirect "/catalog/genres") ∧
      genre_update_post id gbody s = (s, .redirect "/catalog/genres")) ∧
    ((∀ b ∈ s.bookinstances, b.id ≠ id) →
      bookinstance_delete_get id s = (s, .redirect "/catalog/bookinstances") ∧
      bookinstance_delete_post id ibody s = (s, .redirect "/catalog/bookinstances") ∧
      bookinstance_update_get id s = (s, .redirect "/catalog/bookinstances") ∧
      bookinstance_update_post id ibody s = (s, .redirect "/catalog/bookinstances")) := by
  constructor
  · intro h
    have hf := findById_eq_none.mpr h
    simp [genre_delete_get, genre_delete_post, genre_update_get, genre_update_post, hf]
  · intro h
    have hf := findById_eq_none.mpr h
    simp [bookinstance_delete_get, bookinstance_delete_post, bookinstance_update_get,
      bookinstance_update_post, hf]

theorem missing_entity_redirects_witness :
    (genre_delete_get "g9" sampleStore = (sampleStore, .redirect "/catalog/genres") ∧
      genre_delete_post "g9" { genreid := some "g1" } sampleStore
        = (sampleStore, .redirect "/catalog/genres") ∧
      genre_update_get "g9" sampleStore = (sampleStore, .redirect "/catalog/genres") ∧
      genre_update_post "g9" { genreid := some "g1" } sampleStore
        = (sampleStore, .redirect "/catalog/genres")) ∧
    (bookinstance_delete_get "g9" sampleStore
        = (sampleStore, .redirect "/catalog/bookinstances") ∧
      bookinstance_delete_post "g9" { bookinstanceid := some "i1" } sampleStore
        = (sampleStore, .redirect "/catalog/bookinstances") ∧
      bookinstance_update_get "g9" sampleStore
        = (sampleStore, .redirect "/catalog/bookinstances") ∧
      bookinstance_update_post "g9" { bookinstanceid := some "i1" } sampleStore
        = (sampleStore, .redirect "/catalog/bookinstances")) :=
  ⟨(missing_entity_redirects "g9" { genreid := some "g1" } { bookinstanceid := some "i1" }
      sampleStore).1 (by decide),
   (missing_entity_redirects "g9" { genreid := some "g1" } { bookinstanceid := some "i1" }
      sampleStore).2 (by decide)⟩

/-! ## Creating a book instance -/

theorem errors_with_imprint_nonempty (l₁ l₂ : List FieldError) (e : FieldError) :
    (!(l₁ ++ [e] ++ l₂).isEmpty) = true := by
  cases l₁ <;> simp

/-- On a submission without imprint whose sanitized `book` value casts to an id, the
store is unchanged and `bookinstance_form` is rendered with an error for `imprint`
and with that id as `selected_book`. -/
theorem bookinstance_create_post_castable_book (lib : FieldLib) (newId : Id)
    (body : InstanceBody) (s : Store) (bookId : Id)
    (himprint : trim (fieldText body.imprint) = "")
    (hcast : lib.castObjectId (escape (trim (fieldText body.book))) = some bookId) :
    (bookinstance_create_post lib newId body s).1 = s ∧
    ∃ locals errs e,
      (bookinstance_create_post lib newId body s).2 = .render "bookinstance_form" locals ∧
      locals.errors = some errs ∧ e ∈ errs ∧ e.field = "imprint" ∧
      locals.selected_book = some bookId := by
  have hlen : isLength 1 (trim (fieldText body.imprint)) = false := by
    rw [himprint]; rfl
  constructor
  · simp only [bookinstance_create_post, hlen, Bool.false_eq_true, if_false,
      errors_with_imprint_nonempty, if_true, hcast]
  · refine ⟨{ title := "Create BookInstance"
              book_list := some (Book.findTitles s.books)
              selected_book := some bookId
              errors := some ((if isLength 1 (trim (fieldText body.book)) then []
                  else [⟨"book", "Book must be specified"⟩])
                ++ [⟨"imprint", "Imprint must be specified"⟩]
                ++ (sanitizeDueBack lib body.due_back).1)
              bookinstance := some (.plain
                { id := newId
                  book := some bookId
                  imprint := some (escape (trim (fieldText body.imprint)))
                  status := some (escape (fieldText body.status))
                  due_back := (sanitizeDueBack lib body.due_back).2 }) },
      _, ⟨"imprint", "Imprint must be specified"⟩, ?_, rfl, ?_, rfl, rfl⟩
    · simp only [bookinstance_create_post, hlen, Bool.false_eq_true, if_false,
        errors_with_imprint_nonempty, if_true, hcast]
    · simp

/-- C6: evaluation of `bookinstance_create_post` on a submission without imprint
whose sanitized `book` value casts to no id (a missing or empty `book` among them).
The store is unchanged, but instead of rendering `bookinstance_form` with the
errors the handler forwards the TypeError of the read `bookInstance.book._id` to
`next`: nothing is rendered. -/
theorem bookinstance_create_post_uncastable_book (lib : FieldLib) (newId : Id)
    (body : InstanceBody) (s : Store)
    (himprint : trim (fieldText body.imprint) = "")
    (hcast : lib.castObjectId (escape (trim (fieldText body.book))) = none) :
    bookinstance_create_post lib newId body s = (s, .next undefinedReadError) ∧
    (bookinstance_create_post lib newId body s).2.isRender = false := by
  have hlen : isLength 1 (trim (fieldText body.imprint)) = false := by
    rw [himprint]; rfl
  have hrun : bookinstance_create_post lib newId body s = (s, .next undefinedReadError) := by
    simp only [bookinstance_create_post, hlen, Bool.false_eq_true, if_false,
      errors_with_imprint_nonempty, if_true, hcast]
  exact ⟨hrun, by rw [hrun]; rfl⟩

theorem bookinstance_create_post_uncastable_book_witness :
    bookinstance_create_post sampleFieldLib "i2" { } sampleStore
      = (sampleStore, .next undefinedReadError) ∧
    (bookinstance_create_post sampleFieldLib "i2" { } sampleStore).2.isRender = false :=
  bookinstance_create_post_uncastable_book sampleFieldLib "i2" { } sampleStore
    (by decide) (by decide)

/-! ## Updating a book instance -/

/-- C9: when the route id names a stored book instance `b`, `bookinstance_update_post`
overwrites exactly that document with one whose status and due_back are those of
the body (due_back absent when the body has none) and whose id, book and imprint
are those of `b`; every other document and collection is unchanged, the response
is a redirect to the url of `b`, and a following `bookinstance_detail` request
renders the instance with the new status. -/
theorem bookinstance_update_post_effect (id : Id) (body : InstanceBody) (s : Store)
    (b : BookInstance) (hb : findById BookInstance.id s.bookinstances id = some b) :
    ∃ (b2 : BookInstance) (l₁ l₂ : List BookInstance),
      b2.status = body.status ∧ b2.due_back = body.due_back.map DueBack.text ∧
      (body.due_back = none → b2.due_back = none) ∧
      b2.id = b.id ∧ b2.book = b.book ∧ b2.imprint = b.imprint ∧
      s.bookinstances = l₁ ++ b :: l₂ ∧
      (bookinstance_update_post id body s).1.bookinstances = l₁ ++ b2 :: l₂ ∧
      (bookinstance_update_post id body s).1.genres = s.genres ∧
      (bookinstance_update_post id body s).1.books = s.books ∧
      findById BookInstance.id (bookinstance_update_post id body s).1.bookinstances id
        = some b2 ∧
      (∀ id2, id2 ≠ id →
        findById BookInstance.id (bookinstance_update_post id body s).1.bookinstances id2
          = findById BookInstance.id s.bookinstances id2) ∧
      (bookinstance_update_post id body s).2 = .redirect b.url ∧
      ∃ v : PopulatedInstance,
        (bookinstance_detail id (bookinstance_update_post id body s).1).2
          = .render "bookinstance_detail"
              { title := "Buch:", bookinstance := some (.populated v) } ∧
        v.id = id ∧ v.status = body.status ∧ v.due_back = body.due_back.map DueBack.text := by
  obtain ⟨_, hid⟩ := findById_eq_some hb
  obtain ⟨l₁, l₂, hxs, hl₁, hsave⟩ :=
    saveLoaded_split BookInstance.id
      { b with status := body.status, due_back := body.due_back.map DueBack.text }
      s.bookinstances b (by simpa [hid] using hb)
  have hstore : (bookinstance_update_post id body s).1.bookinstances
      = l₁ ++ { b with status := body.status, due_back := body.due_back.map DueBack.text }
          :: l₂ := by
    simp only [bookinstance_update_post, hb]
    exact hsave
  have hl₁id : ∀ y ∈ l₁, y.id ≠ id := by
    intro y hy; rw [← hid]; exact hl₁ y hy
  have hfind : findById BookInstance.id (bookinstance_update_post id body s).1.bookinstances id
      = some { b with status := body.status, due_back := body.due_back.map DueBack.text } := by
    rw [hstore, findById_append_of_forall_ne BookInstance.id id _ l₁ hl₁id]
    simp [findById, hid]
  refine ⟨{ b with status := body.status, due_back := body.due_back.map DueBack.text },
    l₁, l₂, rfl, rfl, ?_, rfl, rfl, rfl, hxs, hstore, ?_, ?_, hfind, ?_, ?_, ?_⟩
  · intro hnone; simp [hnone]
  · simp [bookinstance_update_post, hb]
  · simp [bookinstance_update_post, hb]
  · intro id2 hne
    rw [hstore, hxs]
    exact findById_replace_other BookInstance.id id2 b
      { b with status := body.status, due_back := body.due_back.map DueBack.text }
      rfl (by rw [hid]; exact hne) l₂ l₁
  · simp [bookinstance_update_post, hb, BookInstance.url]
  · refine ⟨populate (bookinstance_update_post id body s).1.books
      { b with status := body.status, due_back := body.due_back.map DueBack.text }, ?_, ?_, ?_, ?_⟩
    · simp only [bookinstance_detail, hfind, Option.map_some']
    · simpa [populate] using hid
    · simp [populate]
    · simp [populate]

theorem bookinstance_update_post_effect_witness :
    ∃ (b2 : BookInstance) (l₁ l₂ : List BookInstance),
      b2.status = some "Loaned" ∧ b2.due_back = (none : Option String).map DueBack.text ∧
      ((none : Option String) = none → b2.due_back = none) ∧
      b2.id = "i1" ∧ b2.book = some "b1" ∧ b2.imprint = some "Gollancz" ∧
      sampleStore.bookinstances
        = l₁ ++ ⟨"i1", some "b1", some "Gollancz", some "Available", none⟩ :: l₂ ∧
      (bookinstance_update_post "i1" { status := some "Loaned" } sampleStore).1.bookinstances
        = l₁ ++ b2 :: l₂ ∧
      (bookinstance_update_post "i1" { status := some "Loaned" } sampleStore).1.genres
        = sampleStore.genres ∧
      (bookinstance_update_post "i1" { status := some "Loaned" } sampleStore).1.books
        = sampleStore.books ∧
      findById BookInstance.id
        (bookinstance_update_post "i1" { status := some "Loaned" } sampleStore).1.bookinstances
        "i1" = some b2 ∧
      (∀ id2, id2 ≠ "i1" →
        findById BookInstance.id
          (bookinstance_update_post "i1" { status := some "Loaned" } sampleStore).1.bookinstances
          id2 = findById BookInstance.id sampleStore.bookinstances id2) ∧
      (bookinstance_update_post "i1" { status := some "Loaned" } sampleStore).2
        = .redirect (BookInstance.url
            ⟨"i1", some "b1", some "Gollancz", some "Available", none⟩) ∧
      ∃ v : PopulatedInstance,
        (bookinstance_detail "i1"
          (bookinstance_update_post "i1" { status := some "Loaned" } sampleStore).1).2
          = .render "bookinstance_detail"
              { title := "Buch:", bookinstance := some (.populated v) } ∧
        v.id = "i1" ∧ v.status = some "Loaned" ∧
        v.due_back = (none : Option String).map DueBack.text :=
  bookinstance_update_post_effect "i1" { status := some "Loaned" } sampleStore
    ⟨"i1", some "b1", some "Gollancz", some "Available", none⟩ (by decide)

/-! ## Uniqueness of genre names -/

theorem nodup_names_saveLoaded (gs : List Genre) (t d : Genre)
    (hunique : (gs.map Genre.name).Nodup)
    (ht : findById Genre.id gs d.id = some t)
    (hclash : ∀ g ∈ gs, g.name = d.name → g = t) :
    ((saveLoaded Genre.id gs d).map Genre.name).Nodup := by
  obtain ⟨l₁, l₂, hgs, _, hsave⟩ := saveLoaded_split Genre.id d gs t ht
  rw [hsave]
  rw [hgs] at hunique
  simp only [List.map_append, List.map_cons] at hunique ⊢
  rw [List.nodup_middle, List.nodup_cons] at hunique ⊢
  refine ⟨?_, hunique.2⟩
  intro hmem
  rw [← List.map_append] at hmem
  obtain ⟨g, hg, hname⟩ := List.mem_map.mp hmem
  have hgmem : g ∈ gs := by
    rw [hgs]
    rcases List.mem_append.mp hg with h | h
    · exact List.mem_append_left _ h
    · exact List.mem_append_right _ (List.mem_cons_of_mem _ h)
  have hgt : g = t := hclash g hgmem hname
  apply hunique.1
  rw [← List.map_append]
  exact List.mem_map.mpr ⟨g, hg, by rw [hgt]⟩

theorem genreStep_preserves_uniqueNames (r : GenreRequest) (s : Store)
    (hunique : UniqueNames s) (hclash : NoNameClash r s) :
    UniqueNames (genreStep r s).1 := by
  cases r with
  | list => exact hunique
  | detail id =>
    show UniqueNames (genre_detail id s).1
    unfold genre_detail
    cases findById Genre.id s.genres id <;> exact hunique
  | create_get => exact hunique
  | create_post newId body =>
    show UniqueNames (genre_create_post newId body s).1
    by_cases hv : isLength 3 (trim (fieldText body.name)) = true
    · cases hf : Genre.findOne s.genres (escape (trim (fieldText body.name))) with
      | some g =>
        have hs : (genre_create_post newId body s).1 = s := by
          simp [genre_create_post, hv, hf]
        rw [hs]; exact hunique
      | none =>
        have hfresh := findOne_eq_none.mp hf
        have hs : (genre_create_post newId body s).1.genres
            = s.genres ++ [⟨newId, some (escape (trim (fieldText body.name))), none⟩] := by
          simp [genre_create_post, hv, hf, saveNew]
        unfold UniqueNames at hunique ⊢
        rw [hs]
        simp only [List.map_append, List.map_cons, List.map_nil]
        refine List.Nodup.append hunique (List.nodup_singleton _) ?_
        intro n hn hn2
        rw [List.mem_singleton] at hn2
        obtain ⟨g, hg, hname⟩ := List.mem_map.mp hn
        exact hfresh g hg (hname.trans hn2)
    · have hs : (genre_create_post newId body s).1 = s := by
        simp [genre_create_post, hv]
      rw [hs]; exact hunique
  | delete_get id =>
    show UniqueNames (genre_delete_get id s).1
    unfold genre_delete_get
    cases findById Genre.id s.genres id <;> exact hunique
  | delete_post id body =>
    show UniqueNames (genre_delete_post id body s).1
    unfold genre_delete_post
    cases findById Genre.id s.genres id with
    | none => exact hunique
    | some g =>
      simp only
      split
      · exact hunique
      · unfold UniqueNames at hunique ⊢
        cases hgid : body.genreid with
        | none => exact hunique
        | some gid =>
          exact hunique.sublist ((List.eraseP_sublist s.genres).map Genre.name)
  | update_get id =>
    show UniqueNames (genre_update_get id s).1
    unfold genre_update_get
    cases findById Genre.id s.genres id <;> exact hunique
  | update_post id body =>
    show UniqueNames (genre_update_post id body s).1
    unfold genre_update_post
    cases hf : findById Genre.id s.genres id with
    | none => exact hunique
    | some t =>
      have hid : t.id = id := (findById_eq_some hf).2
      refine nodup_names_saveLoaded s.genres t
        { t with name := body.name, description := body.description } hunique ?_ ?_
      · simpa [hid] using hf
      · intro g hg hname
        rcases hclash g hg hname with h | h
        · rw [hf] at h; exact absurd h (by simp)
        · rw [hf] at h; exact (Option.some.inj h).symm

/-- C10, as stated, fails: the genre names of the sample store are unique, and after
`genre_update_post` gives genre `g2` the name of genre `g1` they are not. -/
theorem genre_update_post_breaks_unique_names :
    UniqueNames sampleStore ∧
    ¬ UniqueNames (genreStep (.update_post "g2" { name := some "Fantasy" }) sampleStore).1 := by
  decide

/-- C10, amended: uniqueness of genre names is preserved by every genre handler
except that `genre_update_post` preserves it when the submitted name is not the
name of another persisted genre; hence it holds in every state reachable, by such
requests served one after another, from a store that satisfies it. -/
theorem genre_names_unique_reachable (s0 s : Store)
    (hinit : UniqueNames s0) (hreach : Reachable s0 s) : UniqueNames s := by
  induction hreach with
  | init => exact hinit
  | step r s1 _ hclash ih => exact genreStep_preserves_uniqueNames r s1 ih hclash

theorem genre_names_unique_reachable_witness :
    UniqueNames sampleStore ∧
    UniqueNames
      (genreStep (.update_post "g2" { name := some "Crime" })
        (genreStep (.create_post "g3" { name := some "Poetry" }) sampleStore).1).1 :=
  ⟨by decide,
   genre_names_unique_reachable sampleStore _ (by decide)
    (Reachable.step _ _ (Reachable.step _ _ Reachable.init (by decide)) (by decide))⟩

end Catalog
